import Mathlib

/-!
Verification development for the glaucoma target-IOP engine
(`backend/app/trbs_calculator.py` and `backend/app/risk_engine.py`).

Real numbers (Python floats) are modelled as rationals `ℚ`; Python `int(x)`
(truncation toward zero) is `intTrunc`; Python `round(x, 1)` (round half to
even at one decimal) is `round1`.  Dictionary `.get(key, default)` lookups are
modelled by `dictGet` over association lists, keeping the source's string keys.
-/

/-- Computable floor of a rational: `q.num / q.den` (Euclidean division by a
positive denominator is floor division). -/
def ratFloor (q : ℚ) : ℤ := q.num / q.den

/-- Python `int()` applied to a real: truncation toward zero. -/
def intTrunc (q : ℚ) : ℤ := if 0 ≤ q then ratFloor q else -(ratFloor (-q))

/-- Rounding to the nearest integer, halves to the even neighbour, as Python's
`round` does on exact decimal values. -/
def roundHalfEven (q : ℚ) : ℤ :=
  if q - (ratFloor q : ℚ) = 1/2 then 2 * ratFloor (q / 2 + 1/2) else ratFloor (q + 1/2)

/-- Python `round(x, 1)`: round to one decimal place. -/
def round1 (q : ℚ) : ℚ := (roundHalfEven (q * 10) : ℚ) / 10

/-- Python `dict.get(key, default)` over an association list with string keys. -/
def dictGet {β : Type} (d : List (String × β)) (k : String) (dflt : β) : β :=
  (List.lookup k d).getD dflt

namespace TRBSCalculator

/-- Python enum `RiskTier`. -/
inductive RiskTier where
  | LOW
  | MODERATE
  | HIGH
  | VERY_HIGH
deriving DecidableEq

/-- String value of the `RiskTier` enum member, as stored in results. -/
def RiskTier.value : RiskTier → String
  | .LOW => "Low"
  | .MODERATE => "Moderate"
  | .HIGH => "High"
  | .VERY_HIGH => "Very High"

/-- Seven per-domain scores, keyed as in the source's `domain_scores` dict. -/
structure DomainScores where
  demographic_risk : ℕ
  baseline_iop : ℕ
  structural_changes : ℕ
  functional_changes : ℕ
  patient_factors : ℕ
  ocular_modifiers : ℕ
  systemic_factors : ℕ
deriving DecidableEq

/-- Result of target IOP calculation for a single eye (`SingleEyeResult`). -/
structure SingleEyeResult where
  eye : String
  trbs_score : ℕ
  risk_tier : String
  reduction_percentage_min : ℕ
  reduction_percentage_max : ℕ
  reduction_applied : ℕ
  baseline_iop : ℚ
  calculated_target : ℚ
  final_target : ℚ
  domain_scores : DomainScores
deriving DecidableEq

def AGE_SCORES : List (String × ℕ) :=
  [("over_70", 1), ("50_to_70", 2), ("under_50", 3)]

def FAMILY_HISTORY_SCORES : List (String × ℕ) :=
  [("absent", 0), ("present", 1)]

def BASELINE_IOP_SCORES : List (String × ℕ) :=
  [("less_than_22", 0), ("22_to_24", 1), ("24_to_26", 2), ("26_to_28", 3),
   ("28_to_30_or_more", 4)]

def AGM_ADJUSTMENT : List (String × ℚ) :=
  [("0", 0), ("1", 5), ("2", 8), ("3_or_more", 10)]

def CDR_SCORES : List (String × ℕ) :=
  [("0.5_or_less", 0), ("0.6", 1), ("0.7", 2), ("0.8", 3), ("0.9_or_more", 4)]

def NOTCHING_SCORES : List (String × ℕ) :=
  [("absent", 0), ("unipolar", 2), ("bipolar", 3)]

def RNFL_DEFECT_SCORES : List (String × ℕ) :=
  [("absent", 0), ("present", 1)]

def DISC_HEMORRHAGE_SCORES : List (String × ℕ) :=
  [("absent", 0), ("present", 1)]

def MEAN_DEVIATION_SCORES : List (String × ℕ) :=
  [("hfa_not_done", 0), ("greater_than_minus_6", 1), ("minus_6_to_minus_12", 2),
   ("minus_12_to_minus_20", 3), ("less_than_minus_20", 4), ("hfa_not_possible", 4)]

def CENTRAL_FIELD_SCORES : List (String × ℕ) :=
  [("no", 0), ("yes", 2)]

def CCT_SCORES : List (String × ℕ) :=
  [("normal", 0), ("thin", 1)]

def MYOPIA_SCORES : List (String × ℕ) :=
  [("none", 0), ("low_myopia", 1), ("mod_high_myopia", 2)]

def OCULAR_MODIFIERS : List String :=
  ["angle_recession", "pseudoexfoliation", "pigment_dispersion", "steroid_responder"]

def SYSTEMIC_FACTORS : List String :=
  ["low_ocular_perfusion", "migraine_vasospasm", "raynauds", "sleep_apnea",
   "diabetes_mellitus"]

def PATIENT_FACTOR_SCORES : List (String × ℕ) :=
  [("one_eyed_or_advanced_fellow", 2), ("poor_compliance", 1)]

def PATIENT_FACTORS : List String :=
  ["one_eyed_or_advanced_fellow", "poor_compliance"]

def CDR_UPPER_CAP : List (String × ℚ) :=
  [("0.5_or_less", 18), ("0.6", 18), ("0.7", 16), ("0.8", 14), ("0.9_or_more", 12)]

/-- Entry of the `RISK_TIERS` table. -/
structure TierConfig where
  min_score : ℕ
  max_score : ℕ
  reduction_min : ℕ
  reduction_max : ℕ
deriving DecidableEq

def RISK_TIERS : RiskTier → TierConfig
  | .LOW => ⟨1, 6, 20, 25⟩
  | .MODERATE => ⟨7, 12, 30, 35⟩
  | .HIGH => ⟨13, 18, 40, 45⟩
  | .VERY_HIGH => ⟨19, 39, 50, 50⟩

/-- Scan the `RISK_TIERS` dict in insertion order for the band containing the
score; default to Very High when no band matches. -/
def get_risk_tier (trbs_score : ℕ) : RiskTier × TierConfig :=
  if (RISK_TIERS .LOW).min_score ≤ trbs_score ∧ trbs_score ≤ (RISK_TIERS .LOW).max_score then
    (.LOW, RISK_TIERS .LOW)
  else if (RISK_TIERS .MODERATE).min_score ≤ trbs_score ∧ trbs_score ≤ (RISK_TIERS .MODERATE).max_score then
    (.MODERATE, RISK_TIERS .MODERATE)
  else if (RISK_TIERS .HIGH).min_score ≤ trbs_score ∧ trbs_score ≤ (RISK_TIERS .HIGH).max_score then
    (.HIGH, RISK_TIERS .HIGH)
  else if (RISK_TIERS .VERY_HIGH).min_score ≤ trbs_score ∧ trbs_score ≤ (RISK_TIERS .VERY_HIGH).max_score then
    (.VERY_HIGH, RISK_TIERS .VERY_HIGH)
  else
    (.VERY_HIGH, RISK_TIERS .VERY_HIGH)

/-- Target = Baseline × (1 − reduction%), rounded to one decimal. -/
def calculate_target_iop (baseline_iop : ℚ) (reduction_percentage : ℕ) : ℚ :=
  round1 (baseline_iop * (1 - (reduction_percentage : ℚ) / 100))

/-- Domain A: Demographic Risk (1-4); unrecognized age defaults to the
50-to-70 score. -/
def calculate_domain_a (age family_history : String) : ℕ :=
  let score := dictGet AGE_SCORES age 2 + dictGet FAMILY_HISTORY_SCORES family_history 0
  max 1 (min score 4)

/-- Domain B: Baseline IOP (0-4), after the AGM untreated-baseline adjustment. -/
def calculate_domain_b (baseline_iop : ℚ) (num_agm : String) : ℕ :=
  let agm_adj := dictGet AGM_ADJUSTMENT num_agm 0
  let untreated_iop := baseline_iop + agm_adj
  if untreated_iop < 22 then 0
  else if untreated_iop < 24 then 1
  else if untreated_iop < 26 then 2
  else if untreated_iop < 28 then 3
  else 4

/-- Domain C: Structural Changes (0-9). -/
def calculate_domain_c (cdr notching rnfl_defect disc_hemorrhage : String) : ℕ :=
  min (dictGet CDR_SCORES cdr 0 + dictGet NOTCHING_SCORES notching 0 +
    dictGet RNFL_DEFECT_SCORES rnfl_defect 0 +
    dictGet DISC_HEMORRHAGE_SCORES disc_hemorrhage 0) 9

/-- Domain D: Functional/Visual Field Changes (0-6). -/
def calculate_domain_d (mean_deviation central_field : String) : ℕ :=
  min (dictGet MEAN_DEVIATION_SCORES mean_deviation 0 +
    dictGet CENTRAL_FIELD_SCORES central_field 0) 6

/-- Domain E: Disease/Patient Factors (0-3): add the table score of each listed
factor that is a key of `PATIENT_FACTOR_SCORES`. -/
def calculate_domain_e (patient_factors : List String) : ℕ :=
  min (patient_factors.foldl
    (fun s f =>
      match List.lookup f PATIENT_FACTOR_SCORES with
      | some v => s + v
      | none => s) 0) 3

/-- Domain F: Ocular Risk Modifiers (0-8). -/
def calculate_domain_f_ocular (cct myopia : String) (ocular_modifiers : List String) : ℕ :=
  let score := dictGet CCT_SCORES cct 0 + dictGet MYOPIA_SCORES myopia 0
  let score := ocular_modifiers.foldl
    (fun s m => if m ∈ OCULAR_MODIFIERS then s + 1 else s) score
  min score 8

/-- Domain G: Systemic Risk Modifiers (0-5). -/
def calculate_domain_g_systemic (systemic_factors : List String) : ℕ :=
  min (systemic_factors.foldl
    (fun s f => if f ∈ SYSTEMIC_FACTORS then s + 1 else s) 0) 5

/-- Upper cap target IOP based on CDR; `none` (Python `None`) when the
baseline is at most 30. -/
def get_upper_cap_for_cdr (cdr : String) (baseline_iop : ℚ) : Option ℚ :=
  if baseline_iop ≤ 30 then none
  else some (dictGet CDR_UPPER_CAP cdr 18)

/-- Parameters of `calculate_single_eye`, with the source's default values. -/
structure EyeInput where
  eye : String := "OD"
  baseline_iop : ℚ
  age : String := "50_to_70"
  family_history : String := "absent"
  num_agm : String := "0"
  cdr : String := "0.5_or_less"
  notching : String := "absent"
  rnfl_defect : String := "absent"
  disc_hemorrhage : String := "absent"
  mean_deviation : String := "hfa_not_done"
  central_field : String := "no"
  patient_factors : List String := []
  cct : String := "normal"
  myopia : String := "none"
  ocular_modifiers : List String := []
  systemic_factors : List String := []
  use_aggressive_reduction : Bool := false

/-- Calculate Target IOP for a single eye based on TRBS
(`TRBSCalculator.calculate_single_eye`). -/
def calculate_single_eye (inp : EyeInput) : SingleEyeResult :=
  let domain_a := calculate_domain_a inp.age inp.family_history
  let domain_b := calculate_domain_b inp.baseline_iop inp.num_agm
  let domain_c := calculate_domain_c inp.cdr inp.notching inp.rnfl_defect inp.disc_hemorrhage
  let domain_d := calculate_domain_d inp.mean_deviation inp.central_field
  let domain_e := calculate_domain_e inp.patient_factors
  let domain_f := calculate_domain_f_ocular inp.cct inp.myopia inp.ocular_modifiers
  let domain_g := calculate_domain_g_systemic inp.systemic_factors
  let domain_scores : DomainScores :=
    { demographic_risk := domain_a
      baseline_iop := domain_b
      structural_changes := domain_c
      functional_changes := domain_d
      patient_factors := domain_e
      ocular_modifiers := domain_f
      systemic_factors := domain_g }
  let trbs_score :=
    max 1 (min (domain_a + domain_b + domain_c + domain_d + domain_e + domain_f + domain_g) 39)
  let tier_pair := get_risk_tier trbs_score
  let risk_tier := tier_pair.1
  let tier_config := tier_pair.2
  let reduction_pct :=
    if inp.use_aggressive_reduction then tier_config.reduction_max else tier_config.reduction_min
  let calculated_target := calculate_target_iop inp.baseline_iop reduction_pct
  let calculated_target :=
    match get_upper_cap_for_cdr inp.cdr inp.baseline_iop with
    | some upper_cap => if upper_cap < calculated_target then upper_cap else calculated_target
    | none => calculated_target
  let calculated_target :=
    if risk_tier = RiskTier.VERY_HIGH ∧ 12 < calculated_target then 12 else calculated_target
  { eye := inp.eye
    trbs_score := trbs_score
    risk_tier := risk_tier.value
    reduction_percentage_min := tier_config.reduction_min
    reduction_percentage_max := tier_config.reduction_max
    reduction_applied := reduction_pct
    baseline_iop := inp.baseline_iop
    calculated_target := calculated_target
    final_target := calculated_target
    domain_scores := domain_scores }

/-- Very-High-tier floor step of `calculate_single_eye` (source lines 520-522),
as a function of the stored tier string and the post-cap target. -/
def vh_clamp (risk_tier_value : String) (target : ℚ) : ℚ :=
  if risk_tier_value = "Very High" ∧ 12 < target then 12 else target

/-- Concrete input: baseline 32, cup-disc ratio 0.8, all other factors at the
source's defaults, aggressive flag off. -/
def input_32_cdr08 : EyeInput := { baseline_iop := 32, cdr := "0.8" }

/-- Concrete input: baseline 32 with enough risk factors to land in the Very
High tier while the cup-disc ratio stays at the default lowest bracket. -/
def input_32_very_high : EyeInput :=
  { baseline_iop := 32, age := "under_50", family_history := "present",
    notching := "bipolar", rnfl_defect := "present", disc_hemorrhage := "present",
    mean_deviation := "hfa_not_possible", central_field := "yes" }

/-- Concrete input: baseline 28 (no upper cap) with enough risk factors to land
in the Very High tier. -/
def input_28_very_high : EyeInput :=
  { baseline_iop := 28, age := "under_50", family_history := "present",
    notching := "bipolar", rnfl_defect := "present", disc_hemorrhage := "present",
    mean_deviation := "hfa_not_possible", central_field := "yes" }

end TRBSCalculator

namespace RiskEngine

def WITHIN_TARGET : String := "WITHIN_TARGET"

def ABOVE_TARGET : String := "ABOVE_TARGET"

def BELOW_TARGET : String := "BELOW_TARGET"

def LOW_RISK : String := "LOW"

def MODERATE_RISK : String := "MODERATE"

def HIGH_RISK : String := "HIGH"

/-- Evaluate if measured IOP is within the acceptable target range
(`RiskEngine.evaluate_iop_status`); returns the status string and a severity. -/
def evaluate_iop_status (measured_iop target_iop : ℚ) (tolerance : Option ℚ) : String × ℤ :=
  let tol :=
    match tolerance with
    | none => max 2.0 (target_iop * 0.15)
    | some t => t
  let difference := measured_iop - target_iop
  let abs_difference := |difference|
  if abs_difference ≤ tol then (WITHIN_TARGET, 0)
  else if tol < difference then
    let overage := difference - tol
    let weight := 3.0 + (18 - target_iop) * 0.2
    (ABOVE_TARGET, min 30 (intTrunc (overage * weight)))
  else
    let underage := abs_difference - tol
    (BELOW_TARGET, min 20 (intTrunc (underage * 2)))

/-- Assess OCT RNFL thinning progression (`RiskEngine.assess_rnfl_progression`). -/
def assess_rnfl_progression (current_rnfl : ℚ) (previous_measurements : List ℚ)
    (months_between_visits : ℤ) : String × ℤ :=
  if previous_measurements.length < 2 then ("BASELINE", 0)
  else
    let change_per_month :=
      (current_rnfl - (previous_measurements.getLast?).getD 0) /
        ((max months_between_visits 1 : ℤ) : ℚ)
    let annual_loss := |change_per_month * 12|
    if 2.0 < annual_loss then ("PROGRESSIVE", min 25 (intTrunc (annual_loss * 5)))
    else if 1.0 < annual_loss then ("MARGINAL", 10)
    else ("STABLE", 0)

/-- Assess Visual Field Mean Deviation progression
(`RiskEngine.assess_vf_progression`); negative annual change means worsening. -/
def assess_vf_progression (current_md : ℚ) (previous_measurements : List ℚ)
    (months_between_visits : ℤ) : String × ℤ :=
  if previous_measurements.length < 2 then ("BASELINE", 0)
  else
    let change_per_month :=
      (current_md - (previous_measurements.getLast?).getD 0) /
        ((max months_between_visits 1 : ℤ) : ℚ)
    let annual_change := change_per_month * 12
    if annual_change < -1.0 then ("PROGRESSIVE", min 25 (intTrunc (|annual_change| * 10)))
    else if annual_change < -0.5 then ("MARGINAL", 10)
    else ("STABLE", 0)

def severity_map : List (String × ℚ) :=
  [("MILD", 0), ("MODERATE", 3), ("SEVERE", 10)]

/-- Calculate the overall composite risk score (0-100) and risk level
(`RiskEngine.calculate_risk_score`).  The numeric value interpolated into the
fluctuation reason string is elided. -/
def calculate_risk_score (iop_status : String) (iop_severity : ℤ) (rnfl_status : String)
    (rnfl_severity : ℤ) (vf_status : String) (vf_severity : ℤ) (disease_severity : String)
    (pressure_fluctuation : ℚ) (medication_adherence : String) : String × ℤ × List String :=
  let score : ℚ := 0
  let reasons : List String := []
  let score := score + (iop_severity : ℚ) * 1.3
  let reasons := reasons ++
    (if iop_status = ABOVE_TARGET then
      if 20 ≤ iop_severity then ["IOP significantly above target"]
      else ["IOP above target range"]
     else [])
  let score := score + (rnfl_severity : ℚ)
  let reasons := reasons ++
    (if rnfl_status = "PROGRESSIVE" then ["Significant RNFL thinning detected"]
     else if rnfl_status = "MARGINAL" then ["Marginal RNFL changes observed"]
     else [])
  let score := score + (vf_severity : ℚ)
  let reasons := reasons ++
    (if vf_status = "PROGRESSIVE" then ["Visual field deterioration"]
     else if vf_status = "MARGINAL" then ["Borderline VF changes"]
     else [])
  let score := score + dictGet severity_map disease_severity 5
  let reasons := reasons ++
    (if disease_severity = "SEVERE" then ["Severe glaucoma at baseline"] else [])
  let score :=
    if 5 < pressure_fluctuation then score + ((min 5 (intTrunc pressure_fluctuation) : ℤ) : ℚ)
    else score
  let reasons := reasons ++
    (if 5 < pressure_fluctuation then ["High IOP fluctuation"] else [])
  let score := if medication_adherence = "POOR" then min 100 (score + 15) else score
  let reasons := reasons ++
    (if medication_adherence = "POOR" then ["Poor medication adherence reported"] else [])
  let score_int : ℤ := min 100 (intTrunc score)
  let risk_level :=
    if score_int < 30 then LOW_RISK
    else if score_int < 70 then MODERATE_RISK
    else HIGH_RISK
  let reasons := if reasons = [] then ["Stable glaucoma control"] else reasons
  (risk_level, score_int, reasons)

end RiskEngine


theorem ratFloor_eq (q : ℚ) : ratFloor q = ⌊q⌋ := Rat.floor_def.symm


theorem intTrunc_nonneg {q : ℚ} (h : 0 ≤ q) : 0 ≤ intTrunc q := by
  unfold intTrunc
  rw [if_pos h, ratFloor_eq]
  exact Int.floor_nonneg.mpr h


theorem intTrunc_mono {a b : ℚ} (h : a ≤ b) : intTrunc a ≤ intTrunc b := by
  unfold intTrunc
  simp only [ratFloor_eq]
  by_cases ha : 0 ≤ a
  · rw [if_pos ha, if_pos (le_trans ha h)]
    exact Int.floor_le_floor h
  · rw [if_neg ha]
    by_cases hb : 0 ≤ b
    · rw [if_pos hb]
      have h1 : 0 ≤ ⌊-a⌋ := Int.floor_nonneg.mpr (by linarith [lt_of_not_le ha])
      have h2 : 0 ≤ ⌊b⌋ := Int.floor_nonneg.mpr hb
      omega
    · rw [if_neg hb]
      have := Int.floor_le_floor (neg_le_neg h)
      omega


theorem intTrunc_eq_of_nonneg {q : ℚ} {n : ℤ} (h0 : 0 ≤ q) (h1 : (n : ℚ) ≤ q)
    (h2 : q < n + 1) : intTrunc q = n := by
  unfold intTrunc
  rw [if_pos h0, ratFloor_eq]
  exact Int.floor_eq_iff.mpr ⟨h1, h2⟩


theorem roundHalfEven_eq_of (q : ℚ) (n : ℤ) (hne : q - (ratFloor q : ℚ) ≠ 1/2)
    (h1 : (n : ℚ) ≤ q + 1/2) (h2 : q + 1/2 < n + 1) : roundHalfEven q = n := by
  unfold roundHalfEven
  rw [if_neg hne, ratFloor_eq]
  exact Int.floor_eq_iff.mpr ⟨h1, h2⟩

theorem ratFloor_intCast (n : ℤ) : ratFloor (n : ℚ) = n := by
  rw [ratFloor_eq]; exact Int.floor_intCast n

theorem roundHalfEven_intCast (n : ℤ) : roundHalfEven (n : ℚ) = n := by
  unfold roundHalfEven
  rw [ratFloor_intCast]
  rw [if_neg (by norm_num)]
  rw [ratFloor_eq]
  exact Int.floor_eq_iff.mpr ⟨by norm_num, by norm_num⟩

theorem intTrunc_intCast (n : ℤ) : intTrunc (n : ℚ) = n := by
  unfold intTrunc
  by_cases h : (0 : ℚ) ≤ (n : ℚ)
  · rw [if_pos h, ratFloor_intCast]
  · rw [if_neg h, show (-(n : ℚ)) = ((-n : ℤ) : ℚ) by push_cast; ring, ratFloor_intCast]
    omega

namespace TRBSCalculator

theorem calculate_target_iop_eq (b : ℚ) (p : ℕ) (n : ℤ)
    (h : b * (1 - (p : ℚ)/100) * 10 = (n : ℚ)) :
    calculate_target_iop b p = (n : ℚ)/10 := by
  unfold calculate_target_iop round1
  rw [h, roundHalfEven_intCast]

theorem RiskTier.value_eq_very_high (t : RiskTier) :
    t.value = "Very High" ↔ t = RiskTier.VERY_HIGH := by
  cases t <;> simp [RiskTier.value]

end TRBSCalculator

namespace TRBSCalculator

theorem if_lt_eq_min (cap t : ℚ) : (if cap < t then cap else t) = min t cap := by
  rcases le_or_lt t cap with h | h
  · rw [if_neg (not_lt.mpr h), min_eq_left h]
  · rw [if_pos h, min_eq_right h.le]

theorem calculate_single_eye_final (inp : EyeInput) :
    (calculate_single_eye inp).final_target =
      vh_clamp (calculate_single_eye inp).risk_tier
        (match get_upper_cap_for_cdr inp.cdr inp.baseline_iop with
         | some cap =>
             min (calculate_target_iop inp.baseline_iop
               (calculate_single_eye inp).reduction_applied) cap
         | none =>
             calculate_target_iop inp.baseline_iop
               (calculate_single_eye inp).reduction_applied) := by
  cases hcap : get_upper_cap_for_cdr inp.cdr inp.baseline_iop with
  | none =>
      simp only [calculate_single_eye, hcap, vh_clamp, RiskTier.value_eq_very_high]
  | some cap =>
      simp only [calculate_single_eye, hcap, vh_clamp, RiskTier.value_eq_very_high,
        if_lt_eq_min]

end TRBSCalculator

namespace TRBSCalculator

theorem calculate_single_eye_risk_tier (inp : EyeInput) :
    (calculate_single_eye inp).risk_tier =
      ((get_risk_tier (calculate_single_eye inp).trbs_score).1).value := rfl

theorem calculate_single_eye_trbs_bounds (inp : EyeInput) :
    1 ≤ (calculate_single_eye inp).trbs_score ∧ (calculate_single_eye inp).trbs_score ≤ 39 := by
  simp only [calculate_single_eye]
  omega

theorem get_risk_tier_very_high (t : ℕ) (h1 : 1 ≤ t) (h39 : t ≤ 39) :
    (get_risk_tier t).1 = RiskTier.VERY_HIGH ↔ 19 ≤ t := by
  unfold get_risk_tier
  split_ifs with hA hB hC hD <;> simp_all [RISK_TIERS] <;> omega

theorem calculate_domain_a_bounds (age fh : String) :
    1 ≤ calculate_domain_a age fh ∧ calculate_domain_a age fh ≤ 4 := by
  simp only [calculate_domain_a]
  omega

theorem calculate_domain_b_le (b : ℚ) (agm : String) : calculate_domain_b b agm ≤ 4 := by
  simp only [calculate_domain_b]
  split_ifs <;> omega

theorem calculate_domain_c_le (c n r d : String) : calculate_domain_c c n r d ≤ 9 := by
  unfold calculate_domain_c
  omega

theorem calculate_domain_d_le (m c : String) : calculate_domain_d m c ≤ 6 := by
  unfold calculate_domain_d
  omega

theorem calculate_domain_e_le (pf : List String) : calculate_domain_e pf ≤ 3 := by
  unfold calculate_domain_e
  omega

theorem calculate_domain_f_le (c m : String) (om : List String) :
    calculate_domain_f_ocular c m om ≤ 8 := by
  simp only [calculate_domain_f_ocular]
  omega

theorem calculate_domain_g_le (sf : List String) : calculate_domain_g_systemic sf ≤ 5 := by
  unfold calculate_domain_g_systemic
  omega

end TRBSCalculator

open TRBSCalculator

/-- Claim C3: for every single-eye TRBS computation the TRBS lies in [1, 39]
and each of the seven domain scores is within its documented bound
(demographic in [1,4], baseline-pressure in [0,4], structural in [0,9],
functional in [0,6], patient-factors in [0,3], ocular-modifiers in [0,8],
systemic in [0,5]; the lower bounds 0 hold by the scores being naturals). -/
theorem trbs_score_and_domain_bounds (inp : EyeInput) :
    1 ≤ (calculate_single_eye inp).trbs_score ∧
    (calculate_single_eye inp).trbs_score ≤ 39 ∧
    1 ≤ (calculate_single_eye inp).domain_scores.demographic_risk ∧
    (calculate_single_eye inp).domain_scores.demographic_risk ≤ 4 ∧
    (calculate_single_eye inp).domain_scores.baseline_iop ≤ 4 ∧
    (calculate_single_eye inp).domain_scores.structural_changes ≤ 9 ∧
    (calculate_single_eye inp).domain_scores.functional_changes ≤ 6 ∧
    (calculate_single_eye inp).domain_scores.patient_factors ≤ 3 ∧
    (calculate_single_eye inp).domain_scores.ocular_modifiers ≤ 8 ∧
    (calculate_single_eye inp).domain_scores.systemic_factors ≤ 5 := by
  have hb := calculate_single_eye_trbs_bounds inp
  refine ⟨hb.1, hb.2, ?_⟩
  show 1 ≤ calculate_domain_a inp.age inp.family_history ∧ _
  exact ⟨(calculate_domain_a_bounds inp.age inp.family_history).1,
    (calculate_domain_a_bounds inp.age inp.family_history).2,
    calculate_domain_b_le inp.baseline_iop inp.num_agm,
    calculate_domain_c_le inp.cdr inp.notching inp.rnfl_defect inp.disc_hemorrhage,
    calculate_domain_d_le inp.mean_deviation inp.central_field,
    calculate_domain_e_le inp.patient_factors,
    calculate_domain_f_le inp.cct inp.myopia inp.ocular_modifiers,
    calculate_domain_g_le inp.systemic_factors⟩

/-- Claim C2: a single-eye computation is in the Very High tier exactly when
its TRBS is at least 19, and in that tier the final target never exceeds 12,
regardless of the baseline (so also when the baseline is at most 30 and no
cup-disc-ratio cap applies); the clamp acts on the post-cap target. -/
theorem very_high_floor (inp : EyeInput) :
    (19 ≤ (calculate_single_eye inp).trbs_score ↔
      (calculate_single_eye inp).risk_tier = "Very High") ∧
    ((calculate_single_eye inp).risk_tier = "Very High" →
      (calculate_single_eye inp).final_target ≤ 12) := by
  have hb := calculate_single_eye_trbs_bounds inp
  constructor
  · rw [calculate_single_eye_risk_tier, RiskTier.value_eq_very_high]
    exact (get_risk_tier_very_high _ hb.1 hb.2).symm
  · intro h
    rw [calculate_single_eye_final]
    unfold vh_clamp
    split_ifs with hc
    · norm_num
    · push_neg at hc
      exact hc h

/-- Claim C2 witness: the Very High input with baseline 28 (at most 30, so no
cup-disc cap applies) has TRBS 19 and a final target of at most 12. -/
theorem very_high_floor_witness :
    19 ≤ (calculate_single_eye input_28_very_high).trbs_score ∧
    (calculate_single_eye input_28_very_high).final_target ≤ 12 := by
  have hB : calculate_domain_b 28 "0" = 4 := by
    norm_num [calculate_domain_b, dictGet, AGM_ADJUSTMENT, List.lookup]
  have htr : (calculate_single_eye input_28_very_high).trbs_score = 19 := by
    simp only [input_28_very_high, calculate_single_eye, hB,
      show calculate_domain_a "under_50" "present" = 4 from rfl,
      show calculate_domain_c "0.5_or_less" "bipolar" "present" "present" = 5 from rfl,
      show calculate_domain_d "hfa_not_possible" "yes" = 6 from rfl,
      show calculate_domain_e [] = 0 from rfl,
      show calculate_domain_f_ocular "normal" "none" [] = 0 from rfl,
      show calculate_domain_g_systemic [] = 0 from rfl]
    decide
  exact ⟨by rw [htr], (very_high_floor _).2 ((very_high_floor _).1.mp (by rw [htr]))⟩

/-- Claim C1 counterexample: with baseline 32 and Very High risk factors the
raw 50-percent target is 16 and the cup-disc ceiling is 18, so
min(raw, ceiling) is 16, yet the final target is 12 (the Very-High floor fires
after the cap): the final target does not equal min(raw, ceiling). -/
theorem upper_cap_rule_counterexample :
    (calculate_single_eye input_32_very_high).final_target = 12 ∧
    min (calculate_target_iop 32 (calculate_single_eye input_32_very_high).reduction_applied)
      (dictGet CDR_UPPER_CAP "0.5_or_less" 18) = 16 ∧
    (calculate_single_eye input_32_very_high).final_target ≠
      min (calculate_target_iop 32 (calculate_single_eye input_32_very_high).reduction_applied)
        (dictGet CDR_UPPER_CAP "0.5_or_less" 18) := by
  have hB : calculate_domain_b 32 "0" = 4 := by
    norm_num [calculate_domain_b, dictGet, AGM_ADJUSTMENT, List.lookup]
  have ht : calculate_target_iop 32 50 = (160 : ℤ)/10 :=
    calculate_target_iop_eq _ _ 160 (by norm_num)
  have hcap : get_upper_cap_for_cdr "0.5_or_less" 32 = some 18 := by
    rw [get_upper_cap_for_cdr, if_neg (by norm_num)]; rfl
  have hred : (calculate_single_eye input_32_very_high).reduction_applied = 50 := by
    simp only [input_32_very_high, calculate_single_eye, hB,
      show calculate_domain_a "under_50" "present" = 4 from rfl,
      show calculate_domain_c "0.5_or_less" "bipolar" "present" "present" = 5 from rfl,
      show calculate_domain_d "hfa_not_possible" "yes" = 6 from rfl,
      show calculate_domain_e [] = 0 from rfl,
      show calculate_domain_f_ocular "normal" "none" [] = 0 from rfl,
      show calculate_domain_g_systemic [] = 0 from rfl]
    norm_num [get_risk_tier, RISK_TIERS]
  have hfin : (calculate_single_eye input_32_very_high).final_target = 12 := by
    simp only [input_32_very_high, calculate_single_eye, hB, hcap,
      show calculate_domain_a "under_50" "present" = 4 from rfl,
      show calculate_domain_c "0.5_or_less" "bipolar" "present" "present" = 5 from rfl,
      show calculate_domain_d "hfa_not_possible" "yes" = 6 from rfl,
      show calculate_domain_e [] = 0 from rfl,
      show calculate_domain_f_ocular "normal" "none" [] = 0 from rfl,
      show calculate_domain_g_systemic [] = 0 from rfl]
    norm_num [ht, get_risk_tier, RISK_TIERS, RiskTier.value]
  have hmin :
      min (calculate_target_iop 32 (calculate_single_eye input_32_very_high).reduction_applied)
        (dictGet CDR_UPPER_CAP "0.5_or_less" 18) = 16 := by
    rw [hred, ht]
    norm_num [dictGet, CDR_UPPER_CAP, List.lookup]
  refine ⟨hfin, hmin, ?_⟩
  rw [hfin, hmin]
  norm_num

/-- Claim C1 (amended): when the baseline exceeds 30 the final target is
min(raw percentage target, cup-disc ceiling) further clamped to 12 when the
tier is Very High; when the baseline is at most 30 no ceiling enters (only the
Very-High clamp); and the concrete case baseline 32 with cup-disc 0.8 and all
other factors at their defaults yields a final target of 14. -/
theorem upper_cap_rule (inp : EyeInput) :
    (30 < inp.baseline_iop →
      (calculate_single_eye inp).final_target =
        vh_clamp (calculate_single_eye inp).risk_tier
          (min (calculate_target_iop inp.baseline_iop
              (calculate_single_eye inp).reduction_applied)
            (dictGet CDR_UPPER_CAP inp.cdr 18))) ∧
    (inp.baseline_iop ≤ 30 →
      (calculate_single_eye inp).final_target =
        vh_clamp (calculate_single_eye inp).risk_tier
          (calculate_target_iop inp.baseline_iop
            (calculate_single_eye inp).reduction_applied)) ∧
    (calculate_single_eye input_32_cdr08).final_target = 14 := by
  refine ⟨?_, ?_, ?_⟩
  · intro h
    rw [calculate_single_eye_final]
    unfold get_upper_cap_for_cdr
    rw [if_neg (not_le.mpr h)]
  · intro h
    rw [calculate_single_eye_final]
    unfold get_upper_cap_for_cdr
    rw [if_pos h]
  · have hB : calculate_domain_b 32 "0" = 4 := by
      norm_num [calculate_domain_b, dictGet, AGM_ADJUSTMENT, List.lookup]
    have ht : calculate_target_iop 32 30 = (224 : ℤ)/10 :=
      calculate_target_iop_eq _ _ 224 (by norm_num)
    have hcap : get_upper_cap_for_cdr "0.8" 32 = some 14 := by
      rw [get_upper_cap_for_cdr, if_neg (by norm_num)]; rfl
    simp only [input_32_cdr08, calculate_single_eye, hB, ht, hcap,
      show calculate_domain_a "50_to_70" "absent" = 2 from rfl,
      show calculate_domain_c "0.8" "absent" "absent" "absent" = 3 from rfl,
      show calculate_domain_d "hfa_not_done" "no" = 0 from rfl,
      show calculate_domain_e [] = 0 from rfl,
      show calculate_domain_f_ocular "normal" "none" [] = 0 from rfl,
      show calculate_domain_g_systemic [] = 0 from rfl]
    norm_num [ht, get_risk_tier, RISK_TIERS, RiskTier.value]
    decide

/-- Claim C1 witness: the amended cap rule applied at the concrete input with
baseline 32 and cup-disc ratio 0.8. -/
theorem upper_cap_rule_witness :
    (30 : ℚ) < 32 ∧
    (calculate_single_eye input_32_cdr08).final_target =
      vh_clamp (calculate_single_eye input_32_cdr08).risk_tier
        (min (calculate_target_iop 32
            (calculate_single_eye input_32_cdr08).reduction_applied)
          (dictGet CDR_UPPER_CAP "0.8" 18)) :=
  ⟨by norm_num, (upper_cap_rule input_32_cdr08).1 (by norm_num [input_32_cdr08])⟩

/-- Claim C5 counterexample: the "HFA not done" mean-deviation bracket scores
0, not the claimed maximum 4, in the functional domain. -/
theorem md_missing_scores_counterexample :
    calculate_domain_d "hfa_not_done" "no" ≠ 4 ∧
    dictGet MEAN_DEVIATION_SCORES "hfa_not_done" 0 = 0 := by decide

/-- Claim C5 (amended): the "HFA not possible" bracket scores 4 (the maximum
mean-deviation contribution and, with central-field involvement, the maximal
functional domain score), but the "HFA not done" bracket scores 0, the
minimum: only "not possible" is scored at the high end. -/
theorem md_missing_scores :
    dictGet MEAN_DEVIATION_SCORES "hfa_not_possible" 0 = 4 ∧
    calculate_domain_d "hfa_not_possible" "no" = 4 ∧
    dictGet MEAN_DEVIATION_SCORES "hfa_not_done" 0 = 0 ∧
    calculate_domain_d "hfa_not_done" "no" = 0 ∧
    (∀ md cf, calculate_domain_d md cf ≤ calculate_domain_d "hfa_not_possible" "yes") := by
  refine ⟨by decide, by decide, by decide, by decide, ?_⟩
  intro md cf
  have h := calculate_domain_d_le md cf
  have : calculate_domain_d "hfa_not_possible" "yes" = 6 := by decide
  omega

/-- Claim C4 (amended): an unrecognized or absent categorical value never
raises (all lookups are total) and scores the same as the lowest-risk bucket
(contribution 0) in every scoring function except two: the age bracket
defaults to the 50-to-70 score (2, not the lowest-risk 1) and the composite
scorer's disease-severity map defaults to 5 (not the lowest 0). -/
theorem default_scoring (k : String)
    (nA : List.lookup k AGE_SCORES = none)
    (nF : List.lookup k FAMILY_HISTORY_SCORES = none)
    (nAgm : List.lookup k AGM_ADJUSTMENT = none)
    (nC : List.lookup k CDR_SCORES = none)
    (nN : List.lookup k NOTCHING_SCORES = none)
    (nR : List.lookup k RNFL_DEFECT_SCORES = none)
    (nH : List.lookup k DISC_HEMORRHAGE_SCORES = none)
    (nM : List.lookup k MEAN_DEVIATION_SCORES = none)
    (nCF : List.lookup k CENTRAL_FIELD_SCORES = none)
    (nT : List.lookup k CCT_SCORES = none)
    (nMy : List.lookup k MYOPIA_SCORES = none)
    (nP : List.lookup k PATIENT_FACTOR_SCORES = none)
    (nO : k ∉ OCULAR_MODIFIERS)
    (nS : k ∉ SYSTEMIC_FACTORS)
    (nD : List.lookup k RiskEngine.severity_map = none) :
    (∀ fh, calculate_domain_a k fh = calculate_domain_a "50_to_70" fh) ∧
    (∀ age, calculate_domain_a age k = calculate_domain_a age "absent") ∧
    (∀ b, calculate_domain_b b k = calculate_domain_b b "0") ∧
    (∀ n r d, calculate_domain_c k n r d = calculate_domain_c "0.5_or_less" n r d) ∧
    (∀ c r d, calculate_domain_c c k r d = calculate_domain_c c "absent" r d) ∧
    (∀ c n d, calculate_domain_c c n k d = calculate_domain_c c n "absent" d) ∧
    (∀ c n r, calculate_domain_c c n r k = calculate_domain_c c n r "absent") ∧
    (∀ cf, calculate_domain_d k cf = calculate_domain_d "hfa_not_done" cf) ∧
    (∀ md, calculate_domain_d md k = calculate_domain_d md "no") ∧
    calculate_domain_e [k] = 0 ∧
    (∀ my om, calculate_domain_f_ocular k my om = calculate_domain_f_ocular "normal" my om) ∧
    (∀ c om, calculate_domain_f_ocular c k om = calculate_domain_f_ocular c "none" om) ∧
    (∀ c my, calculate_domain_f_ocular c my [k] = calculate_domain_f_ocular c my []) ∧
    calculate_domain_g_systemic [k] = 0 ∧
    (RiskEngine.calculate_risk_score "WITHIN_TARGET" 0 "STABLE" 0 "STABLE" 0 k 0
      "GOOD").2.1 = 5 := by
  refine ⟨?_, ?_, ?_, ?_, ?_, ?_, ?_, ?_, ?_, ?_, ?_, ?_, ?_, ?_, ?_⟩
  · intro fh
    simp [calculate_domain_a, dictGet, nA,
      show (List.lookup "50_to_70" AGE_SCORES).getD 2 = 2 from rfl]
  · intro age
    simp [calculate_domain_a, dictGet, nF,
      show (List.lookup "absent" FAMILY_HISTORY_SCORES).getD 0 = 0 from rfl]
  · intro b
    simp [calculate_domain_b, dictGet, nAgm,
      show (List.lookup "0" AGM_ADJUSTMENT).getD 0 = 0 from rfl]
  · intro n r d
    simp [calculate_domain_c, dictGet, nC,
      show (List.lookup "0.5_or_less" CDR_SCORES).getD 0 = 0 from rfl]
  · intro c r d
    simp [calculate_domain_c, dictGet, nN,
      show (List.lookup "absent" NOTCHING_SCORES).getD 0 = 0 from rfl]
  · intro c n d
    simp [calculate_domain_c, dictGet, nR,
      show (List.lookup "absent" RNFL_DEFECT_SCORES).getD 0 = 0 from rfl]
  · intro c n r
    simp [calculate_domain_c, dictGet, nH,
      show (List.lookup "absent" DISC_HEMORRHAGE_SCORES).getD 0 = 0 from rfl]
  · intro cf
    simp [calculate_domain_d, dictGet, nM,
      show (List.lookup "hfa_not_done" MEAN_DEVIATION_SCORES).getD 0 = 0 from rfl]
  · intro md
    simp [calculate_domain_d, dictGet, nCF,
      show (List.lookup "no" CENTRAL_FIELD_SCORES).getD 0 = 0 from rfl]
  · simp [calculate_domain_e, nP, List.foldl]
  · intro my om
    simp [calculate_domain_f_ocular, dictGet, nT,
      show (List.lookup "normal" CCT_SCORES).getD 0 = 0 from rfl]
  · intro c om
    simp [calculate_domain_f_ocular, dictGet, nMy,
      show (List.lookup "none" MYOPIA_SCORES).getD 0 = 0 from rfl]
  · intro c my
    simp [calculate_domain_f_ocular, nO, List.foldl]
  · simp [calculate_domain_g_systemic, nS, List.foldl]
  · have h5 : intTrunc (5 : ℚ) = 5 :=
      intTrunc_eq_of_nonneg (by norm_num) (by norm_num) (by norm_num)
    simp only [RiskEngine.calculate_risk_score]
    norm_num [dictGet, nD, show ("GOOD" = "POOR") = False from by simp, h5]

/-- Claim C4 counterexample: an unrecognized age bracket contributes 2, not
the lowest-risk score (the lowest-risk bucket "over_70" gives domain score 1),
and an unrecognized disease severity contributes 5 to the composite score
while the lowest-risk bucket "MILD" contributes 0. -/
theorem default_scoring_counterexample :
    calculate_domain_a "unknown_bracket" "absent" = 2 ∧
    calculate_domain_a "over_70" "absent" = 1 ∧
    (RiskEngine.calculate_risk_score "WITHIN_TARGET" 0 "STABLE" 0 "STABLE" 0
      "unknown_severity" 0 "GOOD").2.1 = 5 ∧
    (RiskEngine.calculate_risk_score "WITHIN_TARGET" 0 "STABLE" 0 "STABLE" 0
      "MILD" 0 "GOOD").2.1 = 0 := by
  have h5 : intTrunc (5 : ℚ) = 5 :=
    intTrunc_eq_of_nonneg (by norm_num) (by norm_num) (by norm_num)
  have h0 : intTrunc (0 : ℚ) = 0 :=
    intTrunc_eq_of_nonneg (by norm_num) (by norm_num) (by norm_num)
  refine ⟨by decide, by decide, ?_, ?_⟩
  · simp only [RiskEngine.calculate_risk_score]
    norm_num [show dictGet RiskEngine.severity_map "unknown_severity" 5 = 5 from rfl,
      show ("GOOD" = "POOR") = False from by simp, h5]
  · simp only [RiskEngine.calculate_risk_score]
    norm_num [show dictGet RiskEngine.severity_map "MILD" 5 = 0 from rfl,
      show ("GOOD" = "POOR") = False from by simp, h0]

/-- Claim C4 witness: the amended default behaviour at the concrete
unrecognized key "unrecognized". -/
theorem default_scoring_witness :
    List.lookup "unrecognized" AGE_SCORES = none ∧
    calculate_domain_a "unrecognized" "absent" = calculate_domain_a "50_to_70" "absent" ∧
    calculate_domain_e ["unrecognized"] = 0 ∧
    calculate_domain_g_systemic ["unrecognized"] = 0 := by
  have h := default_scoring "unrecognized" rfl rfl rfl rfl rfl rfl rfl rfl rfl rfl rfl rfl
    (by decide) (by decide) rfl
  exact ⟨rfl, h.1 "absent", h.2.2.2.2.2.2.2.2.2.1, h.2.2.2.2.2.2.2.2.2.2.2.2.2.1⟩

/-- Claim C6 (amended): with at least two prior measurements, the structural
assessor classifies by the absolute value of the annualized change computed
from the current value and the single most recent prior value (times 12 over
max(months, 1)): |change| > 2.0 gives PROGRESSIVE with severity
min(25, trunc(|change| times 5)), |change| > 1.0 gives MARGINAL with severity
10, otherwise STABLE with severity 0 — so a large increase in thickness is
also classified PROGRESSIVE, not STABLE. -/
theorem rnfl_progression_by_abs (current : ℚ) (previous : List ℚ) (months : ℤ)
    (h2 : 2 ≤ previous.length) :
    RiskEngine.assess_rnfl_progression current previous months =
      (if 2.0 < |(current - (previous.getLast?).getD 0) / ((max months 1 : ℤ) : ℚ) * 12| then
        ("PROGRESSIVE",
          min 25 (intTrunc (|(current - (previous.getLast?).getD 0) /
            ((max months 1 : ℤ) : ℚ) * 12| * 5)))
      else if 1.0 < |(current - (previous.getLast?).getD 0) / ((max months 1 : ℤ) : ℚ) * 12| then
        ("MARGINAL", 10)
      else ("STABLE", 0)) := by
  unfold RiskEngine.assess_rnfl_progression
  rw [if_neg (by omega)]

/-- Claim C6 counterexample: a thickness increase of 3 microns per year
(current 103 after prior 100, twelve months apart) is classified PROGRESSIVE
with severity 15 by the code, while the claim says any increase in thickness
(negative loss) yields STABLE with severity 0. -/
theorem rnfl_progression_counterexample :
    RiskEngine.assess_rnfl_progression 103 [100, 100] 12 = ("PROGRESSIVE", 15) ∧
    RiskEngine.assess_rnfl_progression 103 [100, 100] 12 ≠ ("STABLE", 0) := by
  have h15 : intTrunc (15 : ℚ) = 15 :=
    intTrunc_eq_of_nonneg (by norm_num) (by norm_num) (by norm_num)
  have key : RiskEngine.assess_rnfl_progression 103 [100, 100] 12 = ("PROGRESSIVE", 15) := by
    unfold RiskEngine.assess_rnfl_progression
    rw [if_neg (by norm_num)]
    norm_num [show (([100, 100] : List ℚ).getLast?).getD 0 = 100 from rfl, h15]
  exact ⟨key, by rw [key]; simp⟩

/-- Claim C6 witness: a genuine loss of 5 microns per year is PROGRESSIVE
with severity min(25, 5 times 5) = 25. -/
theorem rnfl_progression_by_abs_witness :
    2 ≤ ([100, 100] : List ℚ).length ∧
    RiskEngine.assess_rnfl_progression 95 [100, 100] 12 = ("PROGRESSIVE", 25) := by
  have h := rnfl_progression_by_abs 95 [100, 100] 12 (by norm_num)
  have h25 : intTrunc (25 : ℚ) = 25 :=
    intTrunc_eq_of_nonneg (by norm_num) (by norm_num) (by norm_num)
  refine ⟨by norm_num, ?_⟩
  rw [h]
  norm_num [show (([100, 100] : List ℚ).getLast?).getD 0 = (100 : ℚ) from rfl, h25]

/-- Claim C10: with at least two prior measurements, whenever the annualized
mean-deviation change is at least -0.5 — in particular any improvement,
however large — the functional assessor returns STABLE with severity 0; in
contrast the structural assessor rates the absolute change, so the same
magnitude of improvement (+10 per year) is PROGRESSIVE there. -/
theorem vf_improvement_stable (current : ℚ) (previous : List ℚ) (months : ℤ)
    (h2 : 2 ≤ previous.length)
    (h : -(1/2 : ℚ) ≤
      (current - (previous.getLast?).getD 0) / ((max months 1 : ℤ) : ℚ) * 12) :
    RiskEngine.assess_vf_progression current previous months = ("STABLE", 0) ∧
    RiskEngine.assess_rnfl_progression 110 [100, 100] 12 = ("PROGRESSIVE", 25) := by
  constructor
  · unfold RiskEngine.assess_vf_progression
    rw [if_neg (by omega)]
    rw [if_neg (not_lt.mpr (by linarith)), if_neg (not_lt.mpr (by linarith))]
  · have h50 : intTrunc (50 : ℚ) = 50 :=
      intTrunc_eq_of_nonneg (by norm_num) (by norm_num) (by norm_num)
    unfold RiskEngine.assess_rnfl_progression
    rw [if_neg (by norm_num)]
    norm_num [show (([100, 100] : List ℚ).getLast?).getD 0 = (100 : ℚ) from rfl, h50]

/-- Claim C10 witness: a mean deviation improving from -6 to 5 over twelve
months is classified STABLE with severity 0. -/
theorem vf_improvement_stable_witness :
    2 ≤ ([-6, -6] : List ℚ).length ∧
    -(1/2 : ℚ) ≤
      ((5 : ℚ) - ((([-6, -6] : List ℚ).getLast?).getD 0)) / ((max (12 : ℤ) 1 : ℤ) : ℚ) * 12 ∧
    RiskEngine.assess_vf_progression 5 [-6, -6] 12 = ("STABLE", 0) := by
  have harg : -(1/2 : ℚ) ≤
      ((5 : ℚ) - ((([-6, -6] : List ℚ).getLast?).getD 0)) / ((max (12 : ℤ) 1 : ℤ) : ℚ) * 12 := by
    norm_num [show ((([-6, -6] : List ℚ).getLast?).getD 0) = (-6 : ℚ) from rfl]
  exact ⟨by norm_num, harg, (vf_improvement_stable 5 [-6, -6] 12 (by norm_num) harg).1⟩

/-- Lookup in the disease-severity map is always nonnegative (values 0, 3, 10,
default 5). -/
theorem severity_map_getD_nonneg (d : String) : 0 ≤ dictGet RiskEngine.severity_map d 5 := by
  by_cases h1 : d = "MILD"
  · subst h1
    rw [show dictGet RiskEngine.severity_map "MILD" 5 = 0 from rfl]
  · by_cases h2 : d = "MODERATE"
    · subst h2
      rw [show dictGet RiskEngine.severity_map "MODERATE" 5 = 3 from rfl]
      norm_num
    · by_cases h3 : d = "SEVERE"
      · subst h3
        rw [show dictGet RiskEngine.severity_map "SEVERE" 5 = 10 from rfl]
        norm_num
      · rw [show dictGet RiskEngine.severity_map d 5 =
            (List.lookup d RiskEngine.severity_map).getD 5 from rfl]
        rw [show List.lookup d RiskEngine.severity_map = none from ?_]
        · norm_num
        · have b1 : (d == "MILD") = false := beq_eq_false_iff_ne.mpr h1
          have b2 : (d == "MODERATE") = false := beq_eq_false_iff_ne.mpr h2
          have b3 : (d == "SEVERE") = false := beq_eq_false_iff_ne.mpr h3
          simp [RiskEngine.severity_map, List.lookup, b1, b2, b3]

/-- The final steps of the composite score (the poor-adherence bump, integer
truncation and the cap at 100) are monotone in the accumulated raw score. -/
theorem score_pipeline_mono (adh : String) {a b : ℚ} (h : a ≤ b) :
    min 100 (intTrunc (if adh = "POOR" then min 100 (a + 15) else a)) ≤
    min 100 (intTrunc (if adh = "POOR" then min 100 (b + 15) else b)) := by
  refine min_le_min (le_refl 100) (intTrunc_mono ?_)
  split_ifs
  · exact min_le_min (le_refl 100) (by linarith)
  · exact h

/-- The final steps of the composite score preserve nonnegativity. -/
theorem score_pipeline_nonneg (adh : String) {a : ℚ} (h : 0 ≤ a) :
    0 ≤ min (100 : ℤ) (intTrunc (if adh = "POOR" then min 100 (a + 15) else a)) := by
  refine le_min (by norm_num) (intTrunc_nonneg ?_)
  split_ifs
  · exact le_min (by norm_num) (by linarith)
  · exact h

/-- Claim C9: the composite risk score is monotonically non-decreasing in each
of the three severity inputs with all other inputs fixed; for severity inputs
in their documented (nonnegative) ranges the returned score lies in [0, 100]
(it is truncated to an integer by construction); and the returned risk level
is Low when the returned score is below 30, Moderate below 70, else High. -/
theorem composite_risk_monotone_clamped (istat rstat vstat dsev adh : String)
    (ise ise' rse rse' vse vse' : ℤ) (fluct : ℚ) :
    (ise ≤ ise' →
      (RiskEngine.calculate_risk_score istat ise rstat rse vstat vse dsev fluct adh).2.1 ≤
      (RiskEngine.calculate_risk_score istat ise' rstat rse vstat vse dsev fluct adh).2.1) ∧
    (rse ≤ rse' →
      (RiskEngine.calculate_risk_score istat ise rstat rse vstat vse dsev fluct adh).2.1 ≤
      (RiskEngine.calculate_risk_score istat ise rstat rse' vstat vse dsev fluct adh).2.1) ∧
    (vse ≤ vse' →
      (RiskEngine.calculate_risk_score istat ise rstat rse vstat vse dsev fluct adh).2.1 ≤
      (RiskEngine.calculate_risk_score istat ise rstat rse vstat vse' dsev fluct adh).2.1) ∧
    (0 ≤ ise → 0 ≤ rse → 0 ≤ vse →
      0 ≤ (RiskEngine.calculate_risk_score istat ise rstat rse vstat vse dsev fluct adh).2.1) ∧
    (RiskEngine.calculate_risk_score istat ise rstat rse vstat vse dsev fluct adh).2.1 ≤ 100 ∧
    ((RiskEngine.calculate_risk_score istat ise rstat rse vstat vse dsev fluct adh).1 =
      if (RiskEngine.calculate_risk_score istat ise rstat rse vstat vse dsev fluct adh).2.1 < 30
      then RiskEngine.LOW_RISK
      else if
        (RiskEngine.calculate_risk_score istat ise rstat rse vstat vse dsev fluct adh).2.1 < 70
      then RiskEngine.MODERATE_RISK
      else RiskEngine.HIGH_RISK) := by
  simp only [RiskEngine.calculate_risk_score]
  refine ⟨?_, ?_, ?_, ?_, ?_, trivial⟩
  · intro h
    exact score_pipeline_mono adh (by
      have hc : (ise : ℚ) ≤ (ise' : ℚ) := by exact_mod_cast h
      split_ifs <;> nlinarith [hc])
  · intro h
    exact score_pipeline_mono adh (by
      have hc : (rse : ℚ) ≤ (rse' : ℚ) := by exact_mod_cast h
      split_ifs <;> linarith)
  · intro h
    exact score_pipeline_mono adh (by
      have hc : (vse : ℚ) ≤ (vse' : ℚ) := by exact_mod_cast h
      split_ifs <;> linarith)
  · intro h1 h2 h3
    have c1 : (0 : ℚ) ≤ (ise : ℚ) := by exact_mod_cast h1
    have c2 : (0 : ℚ) ≤ (rse : ℚ) := by exact_mod_cast h2
    have c3 : (0 : ℚ) ≤ (vse : ℚ) := by exact_mod_cast h3
    have c4 := severity_map_getD_nonneg dsev
    refine score_pipeline_nonneg adh ?_
    split_ifs with hf
    · have hfc : (0 : ℚ) ≤ ((min 5 (intTrunc fluct) : ℤ) : ℚ) := by
        have hz : (0 : ℤ) ≤ min 5 (intTrunc fluct) :=
          le_min (by norm_num) (intTrunc_nonneg (by linarith))
        exact_mod_cast hz
      linarith [c1, c2, c3, c4, hfc]
    · linarith [c1, c2, c3, c4]
  · exact min_le_left _ _

/-- Claim C9 witness: monotonicity and the [0, 100] clamp at concrete
severities 10 and 20 with all other inputs fixed. -/
theorem composite_risk_monotone_clamped_witness :
    (10 : ℤ) ≤ 20 ∧
    (RiskEngine.calculate_risk_score "ABOVE_TARGET" 10 "PROGRESSIVE" 10 "MARGINAL" 10
      "SEVERE" 0 "GOOD").2.1 ≤
      (RiskEngine.calculate_risk_score "ABOVE_TARGET" 20 "PROGRESSIVE" 10 "MARGINAL" 10
        "SEVERE" 0 "GOOD").2.1 ∧
    0 ≤ (RiskEngine.calculate_risk_score "ABOVE_TARGET" 10 "PROGRESSIVE" 10 "MARGINAL" 10
      "SEVERE" 0 "GOOD").2.1 ∧
    (RiskEngine.calculate_risk_score "ABOVE_TARGET" 10 "PROGRESSIVE" 10 "MARGINAL" 10
      "SEVERE" 0 "GOOD").2.1 ≤ 100 := by
  have h := composite_risk_monotone_clamped "ABOVE_TARGET" "PROGRESSIVE" "MARGINAL" "SEVERE"
    "GOOD" 10 20 10 10 10 10 0
  exact ⟨by norm_num, h.1 (by norm_num),
    h.2.2.2.1 (by norm_num) (by norm_num) (by norm_num), h.2.2.2.2.1⟩

/-- Claim C7: with the default tolerance max(2.0, 0.15 times target), the
pressure-status evaluator returns WITHIN_TARGET with severity 0 exactly when
|measured - target| is at most the tolerance (so also at the boundary);
the returned status is always exactly one of the three pairwise-distinct
status strings; and an exact match always yields WITHIN_TARGET, severity 0. -/
theorem iop_status_tolerance (measured target : ℚ) :
    (RiskEngine.evaluate_iop_status measured target none = (RiskEngine.WITHIN_TARGET, 0) ↔
      |measured - target| ≤ max 2.0 (target * 0.15)) ∧
    ((RiskEngine.evaluate_iop_status measured target none).1 = RiskEngine.WITHIN_TARGET ∨
      (RiskEngine.evaluate_iop_status measured target none).1 = RiskEngine.ABOVE_TARGET ∨
      (RiskEngine.evaluate_iop_status measured target none).1 = RiskEngine.BELOW_TARGET) ∧
    RiskEngine.WITHIN_TARGET ≠ RiskEngine.ABOVE_TARGET ∧
    RiskEngine.WITHIN_TARGET ≠ RiskEngine.BELOW_TARGET ∧
    RiskEngine.ABOVE_TARGET ≠ RiskEngine.BELOW_TARGET ∧
    (measured = target →
      RiskEngine.evaluate_iop_status measured target none = (RiskEngine.WITHIN_TARGET, 0)) := by
  simp only [RiskEngine.evaluate_iop_status]
  by_cases hin : |measured - target| ≤ max 2.0 (target * 0.15)
  · rw [if_pos hin]
    exact ⟨⟨fun _ => hin, fun _ => rfl⟩, Or.inl rfl, by decide, by decide, by decide,
      fun _ => rfl⟩
  · rw [if_neg hin]
    refine ⟨⟨?_, fun hc => absurd hc hin⟩, ?_, by decide, by decide, by decide, ?_⟩
    · intro he
      exfalso
      by_cases habove : max 2.0 (target * 0.15) < measured - target
      · rw [if_pos habove] at he
        simp [RiskEngine.ABOVE_TARGET, RiskEngine.WITHIN_TARGET, Prod.ext_iff] at he
      · rw [if_neg habove] at he
        simp [RiskEngine.BELOW_TARGET, RiskEngine.WITHIN_TARGET, Prod.ext_iff] at he
    · by_cases habove : max 2.0 (target * 0.15) < measured - target
      · rw [if_pos habove]
        exact Or.inr (Or.inl rfl)
      · rw [if_neg habove]
        exact Or.inr (Or.inr rfl)
    · intro heq
      exfalso
      apply hin
      rw [heq]
      rw [sub_self, abs_zero]
      exact le_max_of_le_left (by norm_num)

/-- Claim C7 witness: measured = target = 18 is WITHIN_TARGET with severity
0. -/
theorem iop_status_tolerance_witness :
    (18 : ℚ) = 18 ∧
    RiskEngine.evaluate_iop_status 18 18 none = (RiskEngine.WITHIN_TARGET, 0) :=
  ⟨rfl, (iop_status_tolerance 18 18).2.2.2.2.2 rfl⟩

/-- Claim C8: evaluating measured 25 against target 14 gives ABOVE_TARGET with
severity 30, against target 20 gives ABOVE_TARGET with severity 5, and the
lower target is penalized strictly more for the same measured pressure
(weight 3.0 + (18 - target) times 0.2). -/
theorem lower_target_steeper :
    RiskEngine.evaluate_iop_status 25 14 none = (RiskEngine.ABOVE_TARGET, 30) ∧
    RiskEngine.evaluate_iop_status 25 20 none = (RiskEngine.ABOVE_TARGET, 5) ∧
    (RiskEngine.evaluate_iop_status 25 20 none).2 <
      (RiskEngine.evaluate_iop_status 25 14 none).2 := by
  have e1 : RiskEngine.evaluate_iop_status 25 14 none = (RiskEngine.ABOVE_TARGET, 30) := by
    simp only [RiskEngine.evaluate_iop_status]
    rw [if_neg (by norm_num [max_def]), if_pos (by norm_num [max_def])]
    rw [@intTrunc_eq_of_nonneg _ 33 (by norm_num [max_def]) (by norm_num [max_def])
      (by norm_num [max_def])]
    norm_num
  have e2 : RiskEngine.evaluate_iop_status 25 20 none = (RiskEngine.ABOVE_TARGET, 5) := by
    simp only [RiskEngine.evaluate_iop_status]
    rw [if_neg (by norm_num [max_def]), if_pos (by norm_num [max_def])]
    rw [@intTrunc_eq_of_nonneg _ 5 (by norm_num [max_def]) (by norm_num [max_def])
      (by norm_num [max_def])]
    norm_num
  refine ⟨e1, e2, ?_⟩
  rw [e1, e2]
  norm_num
